import Mathlib

/-!
Verification of the ETL script (Scripts/ETL.py) of the Dimensional Modeling
Pipeline.  The script reads a flat table of retail transactions, normalizes
the column names, splits the rows into a star schema (Dim_Customer, Dim_Item,
Fact_Purchase) and bulk-loads the three collections into a MySQL database,
recreating the schema on every run.

This file gives a shallow embedding of the script:
* column-name canonicalization (source line 73);
* the row data model and the decomposition into the three entity
  collections performed by read_and_normalize_data (source lines 66-133);
* the schema definition, its creation order and the drop order used by
  setup_database (source lines 21-64 and 136-151);
* the loader load_data (source lines 154-192), modelled as a state machine
  over a connection with a committed store and an uncommitted buffer, with
  a parameter saying which table inserts raise a database error;
* the main block (source lines 195-198).

Theorems after the definitions settle the specification claims.
-/

/-- Model of Python str.lower on one character (ASCII case mapping), as used
on the column names at source line 73. -/
def lowerChar (c : Char) : Char :=
  if 65 ≤ c.toNat ∧ c.toNat ≤ 90 then Char.ofNat (c.toNat + 32) else c

/-- Membership in the character class [a-z0-9_] of the regular expression
used at source line 73. -/
def isAllowedChar (c : Char) : Bool :=
  decide ((97 ≤ c.toNat ∧ c.toNat ≤ 122) ∨ (48 ≤ c.toNat ∧ c.toNat ≤ 57) ∨ c.toNat = 95)

/-- Replace every maximal run of characters outside [a-z0-9_] by a single
underscore; the flag records whether the previous character was part of such
a run.  This models str.replace with pattern [^a-z0-9_]+ and replacement _
(source line 73). -/
def collapseAux : Bool → List Char → List Char
  | _, [] => []
  | inRun, c :: cs =>
    if isAllowedChar c then c :: collapseAux false cs
    else if inRun then collapseAux true cs
    else '_' :: collapseAux true cs

/-- Replace every maximal run of characters outside [a-z0-9_] by one
underscore. -/
def collapseRuns (l : List Char) : List Char := collapseAux false l

/-- Column-name canonicalization of source line 73: lowercase the name, then
replace every maximal run of characters outside [a-z0-9_] with a single
underscore. -/
def canonicalizeName (s : String) : String :=
  String.mk (collapseRuns (s.data.map lowerChar))
/-- One input row after column-name normalization (source lines 72-77): the
fields are the canonicalized column names of the source file that the script
uses.  The field payment_method is the alternate raw payment column of the
input; preferred_payment_method is the customer's preferred method.  Values
are kept as the strings read from the file. -/
structure Row where
  customer_id : String
  age : String
  gender : String
  location : String
  subscription_status : String
  frequency_of_purchases : String
  item_purchased : String
  category : String
  size : String
  color : String
  season : String
  purchase_amount_usd : String
  review_rating : String
  payment_method : String
  preferred_payment_method : String
  shipping_type : String
  discount_applied : String
  promo_code_used : String
  previous_purchases : String
deriving DecidableEq

/-- A row together with the surrogate key added at source line 80
(df.index, the 0-based position of the row). -/
structure NormalizedRow where
  purchase_transaction_id : Nat
  row : Row
deriving DecidableEq

/-- A row of Dim_Customer (column selection at source lines 83-86). -/
structure CustomerRow where
  customer_id : String
  age : String
  gender : String
  location : String
  subscription_status : String
  frequency_of_purchases : String
deriving DecidableEq

/-- A row of Dim_Item (column selection at source lines 90-92, with
item_purchased renamed to item_name at source line 93). -/
structure ItemRow where
  item_name : String
  category : String
  size : String
  color : String
  season : String
deriving DecidableEq

/-- A row of Fact_Purchase (column selection at source lines 98-111, with
item_purchased renamed to item_name and preferred_payment_method renamed to
payment_method at source lines 114-118; the alternate payment_method column
of the input is not selected). -/
structure FactRow where
  purchase_transaction_id : Nat
  customer_id : String
  item_name : String
  category : String
  purchase_amount_usd : String
  review_rating : String
  shipping_type : String
  discount_applied : String
  promo_code_used : String
  previous_purchases : String
  payment_method : String
deriving DecidableEq

/-- The three entity collections returned by read_and_normalize_data
(source lines 122-126). -/
structure StarSchema where
  Dim_Customer : List CustomerRow
  Dim_Item : List ItemRow
  Fact_Purchase : List FactRow
deriving DecidableEq

/-- Projection of an input row onto the Dim_Customer columns
(source lines 83-86). -/
def customerProj (r : Row) : CustomerRow :=
  { customer_id := r.customer_id, age := r.age, gender := r.gender,
    location := r.location, subscription_status := r.subscription_status,
    frequency_of_purchases := r.frequency_of_purchases }

/-- Projection of an input row onto the Dim_Item columns, with
item_purchased renamed to item_name (source lines 90-93). -/
def itemProj (r : Row) : ItemRow :=
  { item_name := r.item_purchased, category := r.category, size := r.size,
    color := r.color, season := r.season }

/-- Projection of a normalized row onto the Fact_Purchase columns, with
item_purchased renamed to item_name and preferred_payment_method renamed to
payment_method (source lines 98-118). -/
def factProj (n : NormalizedRow) : FactRow :=
  { purchase_transaction_id := n.purchase_transaction_id,
    customer_id := n.row.customer_id, item_name := n.row.item_purchased,
    category := n.row.category, purchase_amount_usd := n.row.purchase_amount_usd,
    review_rating := n.row.review_rating, shipping_type := n.row.shipping_type,
    discount_applied := n.row.discount_applied,
    promo_code_used := n.row.promo_code_used,
    previous_purchases := n.row.previous_purchases,
    payment_method := n.row.preferred_payment_method }

/-- Attach consecutive surrogate keys starting at i to a list of rows;
assignFrom 0 models df.index written into purchase_transaction_id at
source line 80 (the index of read_csv is the 0-based row position). -/
def assignFrom : Nat → List Row → List NormalizedRow
  | _, [] => []
  | i, r :: rs => { purchase_transaction_id := i, row := r } :: assignFrom (i + 1) rs

/-- Model of pandas drop_duplicates with keep equal to first on a key: keep
an element when its key has not been seen on an earlier element. -/
def dedupByAux {α κ : Type} [DecidableEq κ] (key : α → κ) : List α → List κ → List α
  | [], _ => []
  | a :: as, seen =>
    if key a ∈ seen then dedupByAux key as seen
    else a :: dedupByAux key as (key a :: seen)

/-- drop_duplicates on a key, keeping the first occurrence in list order
(pandas default keep equal to first; source lines 86 and 92). -/
def dedupBy {α κ : Type} [DecidableEq κ] (key : α → κ) (l : List α) : List α :=
  dedupByAux key l []

/-- The decomposition body of read_and_normalize_data (source lines 79-126):
assign the surrogate key, project and deduplicate Dim_Customer by
customer_id, project and deduplicate Dim_Item by the (item_name, category)
pair, and project every row into Fact_Purchase. -/
def splitData (rows : List Row) : StarSchema :=
  { Dim_Customer := dedupBy CustomerRow.customer_id (rows.map customerProj),
    Dim_Item := dedupBy (fun i => (i.item_name, i.category)) (rows.map itemProj),
    Fact_Purchase := (assignFrom 0 rows).map factProj }

/-- Errors of read_and_normalize_data: the except branches at source
lines 128-133 (file not found, and any other normalization failure). -/
inductive ReadError where
  | NotFoundError
  | NormalizationError
deriving DecidableEq

/-- read_and_normalize_data (source lines 66-133): the file system is
modelled as an optional list of rows at the configured path; a missing file
is the FileNotFoundError branch at source line 128, which the spec calls
NotFoundError. -/
def read_and_normalize_data (file : Option (List Row)) : Except ReadError StarSchema :=
  match file with
  | none => Except.error ReadError.NotFoundError
  | some rows => Except.ok (splitData rows)

/-- The TABLES dictionary (source lines 14-18): load keys paired with
target table names, in insertion order. -/
def TABLES : List (String × String) :=
  [("customer", "Dim_Customer"), ("item", "Dim_Item"), ("purchase", "Fact_Purchase")]

/-- Look a key up in TABLES (the subscript accesses at source line 140). -/
def tableFor (k : String) : String :=
  Option.getD (List.lookup k TABLES) ("")

/-- get_create_table_queries (source lines 21-64): the DDL statements, in
the order in which setup_database executes them (source lines 149-150). -/
def get_create_table_queries : List String :=
  ["
        CREATE TABLE Dim_Customer (
            customer_id INT NOT NULL,
            age INT,
            gender VARCHAR(10),
            location VARCHAR(50),
            subscription_status VARCHAR(10),
            frequency_of_purchases VARCHAR(50),
            PRIMARY KEY (customer_id)
        );
        ",
   "
        CREATE TABLE Dim_Item (
            item_name VARCHAR(50) NOT NULL,
            category VARCHAR(50) NOT NULL,
            size VARCHAR(5),
            color VARCHAR(20),
            season VARCHAR(20),
            PRIMARY KEY (item_name, category)
        );
        ",
   "
        CREATE TABLE Fact_Purchase (
            purchase_transaction_id INT NOT NULL,
            customer_id INT NOT NULL,
            item_name VARCHAR(50) NOT NULL,
            category VARCHAR(50) NOT NULL,
            purchase_amount_usd DECIMAL(10, 2),
            review_rating DECIMAL(3, 2),
            payment_method VARCHAR(50),
            shipping_type VARCHAR(50),
            discount_applied VARCHAR(5),
            promo_code_used VARCHAR(5),
            previous_purchases INT,

            PRIMARY KEY (purchase_transaction_id),
            FOREIGN KEY (customer_id) REFERENCES Dim_Customer(customer_id),
            FOREIGN KEY (item_name, category) REFERENCES Dim_Item(item_name, category)
        );
        "]

/-- Whether the second character list begins with the first. -/
def charsBeginWith : List Char → List Char → Bool
  | [], _ => true
  | _ :: _, [] => false
  | m :: ms, c :: cs => (m == c) && charsBeginWith ms cs

/-- The characters following the first occurrence of the marker. -/
def afterMarker (marker : List Char) : List Char → List Char
  | [] => []
  | c :: cs =>
    if charsBeginWith marker (c :: cs) then (c :: cs).drop marker.length
    else afterMarker marker cs

/-- The table name declared by one CREATE TABLE statement: the word after
the CREATE TABLE keyword. -/
def declaredTableName (q : String) : String :=
  String.mk (List.takeWhile (fun c => decide (c ≠ ' '))
    (afterMarker (String.data ("CREATE TABLE ")) q.data))

/-- The creation order of the schema: the table names declared by
get_create_table_queries, in execution order. -/
def create_table_names : List String :=
  get_create_table_queries.map declaredTableName

/-- The drop order used by setup_database (source line 140):
the purchase, customer and item tables, in that sequence. -/
def drop_order : List String :=
  [tableFor ("purchase"), tableFor ("customer"), tableFor ("item")]

/-- State of the database connection: the rows committed to the store, the
rows inserted in the open transaction but not yet committed, and whether the
connection has been closed.  A load of one table is recorded as the pair of
the table name and the number of rows inserted into it. -/
structure Conn where
  committed : List (String × Nat)
  pending : List (String × Nat)
  closed : Bool
deriving DecidableEq

/-- cursor.executemany (source line 181): buffer the batch insert in the
open transaction. -/
def Conn.executemany (c : Conn) (t : String) (n : Nat) : Conn :=
  { c with pending := c.pending ++ [(t, n)] }

/-- conn.commit (source line 182): make the buffered inserts durable. -/
def Conn.commit (c : Conn) : Conn :=
  { c with committed := c.committed ++ c.pending, pending := [] }

/-- conn.close (source line 192): close the connection; the open
transaction is rolled back, discarding uncommitted inserts. -/
def Conn.close (c : Conn) : Conn :=
  { c with pending := [], closed := true }

/-- The loading loop of load_data (source lines 168-183): for each table in
TABLES order, run the batched insert and then commit.  fails t says whether
the database raises an error during the insert into table t; an error
leaves that insert uncommitted and aborts the loop (the except branch at
source line 187).  Returns the connection, the success flag and the tables
whose insert was attempted, in order. -/
def loadLoop (fails : String → Bool) : Conn → List (String × Nat) → Conn × Bool × List String
  | c, [] => (c, true, [])
  | c, (t, n) :: rest =>
    if fails t then (c.executemany t n, false, [t])
    else
      let r := loadLoop fails ((c.executemany t n).commit) rest
      (r.1, r.2.1, t :: r.2.2)

/-- Outcome of one run of load_data. -/
structure LoadResult where
  conn : Conn
  success : Bool
  attempted : List String
deriving DecidableEq

/-- The per-table work list of the loading loop: the TABLES values in
dictionary order, each paired with the row count of the entity collection
that data_dict holds for it (source lines 168-177). -/
def tablesOf (d : StarSchema) : List (String × Nat) :=
  [("Dim_Customer", d.Dim_Customer.length), ("Dim_Item", d.Dim_Item.length),
   ("Fact_Purchase", d.Fact_Purchase.length)]

/-- load_data (source lines 154-192): connect, load each entity collection
in TABLES order with a commit after each table, and close the connection in
the finally block whatever happened. -/
def load_data (fails : String → Bool) (d : StarSchema) : LoadResult :=
  let r := loadLoop fails { committed := [], pending := [], closed := false } (tablesOf d)
  { conn := r.1.close, success := r.2.1, attempted := r.2.2 }

/-- The main block (source lines 195-198): normalize, and call load_data
only when normalization returned data.  The result is none exactly when the
loader never ran, in which case no database operation was performed. -/
def mainPipeline (file : Option (List Row)) (fails : String → Bool) : Option LoadResult :=
  match read_and_normalize_data file with
  | Except.ok d => some (load_data fails d)
  | Except.error _ => none

/-- A concrete input row used to instantiate hypotheses of the theorems at
a concrete input. -/
def sampleRow : Row :=
  { customer_id := "1", age := "30", gender := "Male", location := "Kentucky",
    subscription_status := "Yes", frequency_of_purchases := "Weekly",
    item_purchased := "Blouse", category := "Clothing", size := "L",
    color := "Gray", season := "Winter", purchase_amount_usd := "53",
    review_rating := "3.1", payment_method := "Credit Card",
    preferred_payment_method := "Venmo", shipping_type := "Express",
    discount_applied := "Yes", promo_code_used := "Yes",
    previous_purchases := "14" }

/-- The star schema decomposed from the one-row sample input. -/
def sampleSchema : StarSchema := splitData [sampleRow]
lemma isAllowedChar_of_mem_collapseAux :
    ∀ (b : Bool) (l : List Char), ∀ c ∈ collapseAux b l, isAllowedChar c = true := by
  intro b l
  induction l generalizing b with
  | nil => intro c hc; simp [collapseAux] at hc
  | cons a as ih =>
    intro c hc
    by_cases ha : isAllowedChar a
    · rw [collapseAux, if_pos ha] at hc
      rcases List.mem_cons.mp hc with h | h
      · exact h ▸ ha
      · exact ih false c h
    · rw [collapseAux, if_neg ha] at hc
      cases b with
      | true =>
        rw [if_pos rfl] at hc
        exact ih true c hc
      | false =>
        rw [if_neg (Bool.false_ne_true)] at hc
        rcases List.mem_cons.mp hc with h | h
        · subst h; decide
        · exact ih true c h

lemma lowerChar_of_allowed {c : Char} (h : isAllowedChar c = true) : lowerChar c = c := by
  simp only [isAllowedChar, decide_eq_true_eq] at h
  unfold lowerChar
  rw [if_neg]
  omega

lemma map_lowerChar_of_allowed :
    ∀ l : List Char, (∀ c ∈ l, isAllowedChar c = true) → l.map lowerChar = l := by
  intro l h
  induction l with
  | nil => rfl
  | cons a as ih =>
    rw [List.map_cons, lowerChar_of_allowed (h a (List.mem_cons_self a as)),
      ih (fun c hc => h c (List.mem_cons_of_mem a hc))]

lemma collapseAux_of_allowed :
    ∀ l : List Char, (∀ c ∈ l, isAllowedChar c = true) → collapseAux false l = l := by
  intro l h
  induction l with
  | nil => rfl
  | cons a as ih =>
    rw [collapseAux, if_pos (h a (List.mem_cons_self a as)),
      ih (fun c hc => h c (List.mem_cons_of_mem a hc))]

/-- C7: field-name canonicalization (lowercasing, then replacing every
maximal run of characters outside [a-z0-9_] with a single underscore) is
idempotent: applying it twice to any field name yields the same result as
applying it once. -/
theorem canonicalizeName_idempotent (s : String) :
    canonicalizeName (canonicalizeName s) = canonicalizeName s := by
  show String.mk (collapseRuns ((collapseRuns (s.data.map lowerChar)).map lowerChar))
      = String.mk (collapseRuns (s.data.map lowerChar))
  have hall := isAllowedChar_of_mem_collapseAux false (s.data.map lowerChar)
  unfold collapseRuns
  rw [map_lowerChar_of_allowed _ hall, collapseAux_of_allowed _ hall]
lemma dedupByAux_spec {α κ : Type} [DecidableEq κ] (key : α → κ) :
    ∀ (l : List α) (seen : List κ) (a : α), a ∈ dedupByAux key l seen →
      key a ∉ seen ∧ l.find? (fun b => decide (key b = key a)) = some a := by
  intro l
  induction l with
  | nil => intro seen a ha; simp [dedupByAux] at ha
  | cons b bs ih =>
    intro seen a ha
    by_cases hb : key b ∈ seen
    · rw [dedupByAux, if_pos hb] at ha
      obtain ⟨hnot, hfind⟩ := ih seen a ha
      have hne : key b ≠ key a := fun he => hnot (he ▸ hb)
      refine ⟨hnot, ?_⟩
      rw [List.find?_cons_of_neg, hfind]
      simp [hne]
    · rw [dedupByAux, if_neg hb] at ha
      rcases List.mem_cons.mp ha with h | hmem
      · subst h
        refine ⟨hb, ?_⟩
        rw [List.find?_cons_of_pos]
        simp
      · obtain ⟨hnot, hfind⟩ := ih (key b :: seen) a hmem
        have hba : key b ≠ key a := by
          intro he
          exact hnot (he ▸ List.mem_cons_self (key b) seen)
        refine ⟨fun hs => hnot (List.mem_cons_of_mem _ hs), ?_⟩
        rw [List.find?_cons_of_neg, hfind]
        simp [hba]

lemma dedupByAux_nodup {α κ : Type} [DecidableEq κ] (key : α → κ) :
    ∀ (l : List α) (seen : List κ), ((dedupByAux key l seen).map key).Nodup := by
  intro l
  induction l with
  | nil => intro seen; simp [dedupByAux]
  | cons b bs ih =>
    intro seen
    by_cases hb : key b ∈ seen
    · rw [dedupByAux, if_pos hb]; exact ih seen
    · rw [dedupByAux, if_neg hb]
      simp only [List.map_cons, List.nodup_cons]
      refine ⟨?_, ih (key b :: seen)⟩
      intro hmem
      obtain ⟨a, ha, hka⟩ := List.mem_map.mp hmem
      exact (dedupByAux_spec key bs (key b :: seen) a ha).1
        (hka ▸ List.mem_cons_self (key b) seen)

lemma dedupByAux_toFinset {α κ : Type} [DecidableEq κ] (key : α → κ) :
    ∀ (l : List α) (seen : List κ),
      ((dedupByAux key l seen).map key).toFinset
        = (l.map key).toFinset \ seen.toFinset := by
  intro l
  induction l with
  | nil => intro seen; simp [dedupByAux]
  | cons b bs ih =>
    intro seen
    by_cases hb : key b ∈ seen
    · rw [dedupByAux, if_pos hb, ih seen]
      ext x
      simp only [List.map_cons, List.toFinset_cons, Finset.mem_sdiff,
        Finset.mem_insert, List.mem_toFinset]
      constructor
      · exact fun h => ⟨Or.inr h.1, h.2⟩
      · rintro ⟨hx | hx, hnx⟩
        · exact absurd (hx ▸ hb) hnx
        · exact ⟨hx, hnx⟩
    · rw [dedupByAux, if_neg hb]
      simp only [List.map_cons, List.toFinset_cons, ih (key b :: seen)]
      ext x
      by_cases hx : x = key b
      · subst hx
        simp [hb]
      · simp only [Finset.mem_insert, Finset.mem_sdiff, List.mem_toFinset,
          List.mem_cons, hx, false_or]

lemma dedupBy_length {α κ : Type} [DecidableEq κ] (key : α → κ) (l : List α) :
    (dedupBy key l).length = (l.map key).toFinset.card := by
  have h1 : ((dedupBy key l).map key).Nodup := dedupByAux_nodup key l []
  have h2 : ((dedupBy key l).map key).toFinset = (l.map key).toFinset := by
    have h3 := dedupByAux_toFinset key l []
    simpa [dedupBy] using h3
  calc (dedupBy key l).length
      = ((dedupBy key l).map key).length := (List.length_map _ _).symm
    _ = ((dedupBy key l).map key).toFinset.card :=
        (List.toFinset_card_of_nodup h1).symm
    _ = (l.map key).toFinset.card := by rw [h2]

lemma assignFrom_length : ∀ (i : Nat) (rows : List Row),
    (assignFrom i rows).length = rows.length := by
  intro i rows
  induction rows generalizing i with
  | nil => rfl
  | cons r rs ih => simp [assignFrom, ih]

lemma assignFrom_payment : ∀ (i : Nat) (rows : List Row),
    ((assignFrom i rows).map factProj).map FactRow.payment_method
      = rows.map Row.preferred_payment_method := by
  intro i rows
  induction rows generalizing i with
  | nil => rfl
  | cons r rs ih => simp [assignFrom, factProj, ih]

lemma assignFrom_ids : ∀ (i : Nat) (rows : List Row),
    ((assignFrom i rows).map factProj).map FactRow.purchase_transaction_id
      = List.range' i rows.length := by
  intro i rows
  induction rows generalizing i with
  | nil => rfl
  | cons r rs ih => simp [assignFrom, factProj, ih, List.range']

lemma assignFrom_map_payment_update (g : Row → String) :
    ∀ (i : Nat) (rows : List Row),
      (assignFrom i (rows.map (fun r => { r with payment_method := g r }))).map factProj
        = (assignFrom i rows).map factProj := by
  intro i rows
  induction rows generalizing i with
  | nil => rfl
  | cons r rs ih => simp [assignFrom, factProj, ih]

/-- C3: every Fact_Purchase row's payment_method is the input row's
preferred_payment_method (positionally, for every input row), and the
alternate raw payment_method column influences no output at all: changing it
arbitrarily in every input row leaves the whole decomposition unchanged. -/
theorem fact_payment_method_disambiguation (rows : List Row) :
    (splitData rows).Fact_Purchase.map FactRow.payment_method
        = rows.map Row.preferred_payment_method
    ∧ ∀ g : Row → String,
        splitData (rows.map (fun r => { r with payment_method := g r })) = splitData rows := by
  constructor
  · exact assignFrom_payment 0 rows
  · intro g
    unfold splitData
    congr 1
    · rw [List.map_map]
      rfl
    · rw [List.map_map]
      rfl
    · exact assignFrom_map_payment_update g 0 rows

/-- C4: the decomposition's cardinalities: Fact_Purchase has one row per
input row (no deduplication), Dim_Customer has one row per distinct
customer_id of the input, and Dim_Item has one row per distinct
(item name, category) pair of the input. -/
theorem star_schema_cardinalities (rows : List Row) :
    (splitData rows).Fact_Purchase.length = rows.length
    ∧ (splitData rows).Dim_Customer.length = (rows.map Row.customer_id).toFinset.card
    ∧ (splitData rows).Dim_Item.length
        = (rows.map (fun r => (r.item_purchased, r.category))).toFinset.card := by
  refine ⟨?_, ?_, ?_⟩
  · show ((assignFrom 0 rows).map factProj).length = rows.length
    rw [List.length_map, assignFrom_length]
  · show (dedupBy CustomerRow.customer_id (rows.map customerProj)).length = _
    rw [dedupBy_length, List.map_map]
    rfl
  · show (dedupBy (fun i => (i.item_name, i.category)) (rows.map itemProj)).length = _
    rw [dedupBy_length, List.map_map]
    rfl

/-- C5: Dim_Customer contains no two rows with the same customer_id,
Dim_Item contains no two rows with the same (item_name, category) pair, and
each kept dimension row is the projection of the first input row carrying
its key (first occurrence in input order wins). -/
theorem dimension_uniqueness_first_wins (rows : List Row) :
    ((splitData rows).Dim_Customer.map CustomerRow.customer_id).Nodup
    ∧ ((splitData rows).Dim_Item.map (fun i => (i.item_name, i.category))).Nodup
    ∧ (∀ c ∈ (splitData rows).Dim_Customer,
        (rows.map customerProj).find? (fun b => decide (b.customer_id = c.customer_id))
          = some c)
    ∧ (∀ it ∈ (splitData rows).Dim_Item,
        (rows.map itemProj).find?
            (fun b => decide ((b.item_name, b.category) = (it.item_name, it.category)))
          = some it) := by
  refine ⟨?_, ?_, ?_, ?_⟩
  · exact dedupByAux_nodup CustomerRow.customer_id (rows.map customerProj) []
  · exact dedupByAux_nodup (fun i => (i.item_name, i.category)) (rows.map itemProj) []
  · intro c hc
    exact (dedupByAux_spec CustomerRow.customer_id (rows.map customerProj) [] c hc).2
  · intro it hit
    have hit2 : it ∈ dedupByAux (fun i : ItemRow => (i.item_name, i.category))
        (rows.map itemProj) [] := hit
    exact (dedupByAux_spec (fun i : ItemRow => (i.item_name, i.category))
      (rows.map itemProj) [] it hit2).2
theorem dimension_uniqueness_first_wins_witness :
    ([sampleRow].map customerProj).find?
        (fun b => decide (b.customer_id = (customerProj sampleRow).customer_id))
      = some (customerProj sampleRow) :=
  (dimension_uniqueness_first_wins [sampleRow]).2.2.1 (customerProj sampleRow) (by decide)

/-- C6: the surrogate keys of Fact_Purchase are exactly 0, 1, 2, ... in
input order: the key of each record is its 0-based position in the input. -/
theorem fact_transaction_ids (rows : List Row) :
    (splitData rows).Fact_Purchase.map FactRow.purchase_transaction_id
      = List.range rows.length := by
  show ((assignFrom 0 rows).map factProj).map FactRow.purchase_transaction_id = _
  rw [assignFrom_ids, List.range_eq_range']

/-- C8: when the input file cannot be located, read_and_normalize_data
signals NotFoundError, and the main block never calls the loader, whatever
the database would have done: the run performs zero database operations. -/
theorem missing_input_file :
    read_and_normalize_data none = Except.error ReadError.NotFoundError
    ∧ ∀ fails : String → Bool, mainPipeline none fails = none :=
  ⟨rfl, fun _ => rfl⟩

/-- C10: an input with the expected columns and zero data rows is
decomposed without error into three empty collections. -/
theorem empty_input_ok :
    read_and_normalize_data (some []) = Except.ok (splitData [])
    ∧ (splitData []).Dim_Customer.length = 0
    ∧ (splitData []).Dim_Item.length = 0
    ∧ (splitData []).Fact_Purchase.length = 0 :=
  ⟨rfl, rfl, rfl, rfl⟩

lemma loadLoop_char (fails : String → Bool) :
    ∀ (ts : List (String × Nat)) (c : Conn), c.pending = [] →
      (loadLoop fails c ts).1.committed
          = c.committed ++ ts.takeWhile (fun p => !(fails p.1))
      ∧ (loadLoop fails c ts).1.closed = c.closed
      ∧ (loadLoop fails c ts).2.1 = ts.all (fun p => !(fails p.1))
      ∧ (loadLoop fails c ts).2.2
          = (ts.takeWhile (fun p => !(fails p.1))).map Prod.fst
            ++ ((ts.dropWhile (fun p => !(fails p.1))).take 1).map Prod.fst := by
  intro ts
  induction ts with
  | nil => intro c hc; simp [loadLoop]
  | cons p rest ih =>
    obtain ⟨t, n⟩ := p
    intro c hc
    by_cases hf : fails t = true
    · simp [loadLoop, hf, Conn.executemany, List.takeWhile_cons, List.dropWhile_cons]
    · have hf2 : fails t = false := by
        cases h : fails t
        · rfl
        · exact absurd h hf
      have hc1 : ((c.executemany t n).commit).pending = [] := rfl
      obtain ⟨h1, h2, h3, h4⟩ := ih ((c.executemany t n).commit) hc1
      have hcom : ((c.executemany t n).commit).committed = c.committed ++ [(t, n)] := by
        simp [Conn.executemany, Conn.commit, hc]
      have hstep : loadLoop fails c ((t, n) :: rest)
          = ((loadLoop fails ((c.executemany t n).commit) rest).1,
             (loadLoop fails ((c.executemany t n).commit) rest).2.1,
             t :: (loadLoop fails ((c.executemany t n).commit) rest).2.2) := by
        simp [loadLoop, hf2]
      rw [hstep]
      refine ⟨?_, ?_, ?_, ?_⟩
      · rw [h1, hcom]
        simp [List.takeWhile_cons, hf2]
      · exact h2
      · rw [h3]
        simp [hf2]
      · rw [h4]
        simp [List.takeWhile_cons, List.dropWhile_cons, hf2]

/-- C1 counterexample: with a database error raised on the Dim_Item insert,
the run fails before all three collections have loaded, yet the
Dim_Customer insert is already committed to the store, so an insert is
committed before all three entity collections have loaded successfully. -/
theorem load_commit_not_atomic :
    (load_data (fun t => t == "Dim_Item") sampleSchema).success = false
    ∧ (load_data (fun t => t == "Dim_Item") sampleSchema).conn.committed
        = [("Dim_Customer", 1)] := by
  constructor
  · rfl
  · rfl

/-- C1 (amended): the Loader commits each entity collection individually,
immediately after that entity's insert succeeds; on a database-level error
the committed store is exactly the maximal prefix of (Dim_Customer,
Dim_Item, Fact_Purchase) loaded before the failing entity - the failing
entity and every entity after it are never committed - no insert is left
uncommitted, and the connection is closed in all cases. -/
theorem load_commit_per_entity (fails : String → Bool) (d : StarSchema) :
    (load_data fails d).conn.committed
        = (tablesOf d).takeWhile (fun p => !(fails p.1))
    ∧ (load_data fails d).conn.pending = []
    ∧ (load_data fails d).conn.closed = true := by
  obtain ⟨h1, h2, h3, h4⟩ :=
    loadLoop_char fails (tablesOf d) { committed := [], pending := [], closed := false } rfl
  refine ⟨?_, rfl, rfl⟩
  have hcc : (load_data fails d).conn.committed
      = (loadLoop fails { committed := [], pending := [], closed := false }
          (tablesOf d)).1.committed := rfl
  rw [hcc, h1]
  simp

/-- C2: if the database insert into Dim_Item fails, the already committed
Dim_Customer load remains in the store, the Fact_Purchase insert is never
attempted, and the connection is closed. -/
theorem item_failure_keeps_customer (d : StarSchema) :
    ("Dim_Customer", d.Dim_Customer.length)
        ∈ (load_data (fun t => t == "Dim_Item") d).conn.committed
    ∧ "Fact_Purchase" ∉ (load_data (fun t => t == "Dim_Item") d).attempted
    ∧ (load_data (fun t => t == "Dim_Item") d).conn.closed = true := by
  obtain ⟨h1, h2, h3, h4⟩ :=
    loadLoop_char (fun t => t == "Dim_Item") (tablesOf d)
      { committed := [], pending := [], closed := false } rfl
  have e1 : (("Dim_Customer" : String) == "Dim_Item") = false := by decide
  have e2 : (("Dim_Item" : String) == "Dim_Item") = true := by decide
  have htw : (tablesOf d).takeWhile (fun p => !((p.1) == "Dim_Item"))
      = [("Dim_Customer", d.Dim_Customer.length)] := by
    simp [tablesOf, List.takeWhile_cons, e1, e2]
  have hdw : (tablesOf d).dropWhile (fun p => !((p.1) == "Dim_Item"))
      = [("Dim_Item", d.Dim_Item.length), ("Fact_Purchase", d.Fact_Purchase.length)] := by
    simp [tablesOf, List.dropWhile_cons, e1, e2]
  refine ⟨?_, ?_, rfl⟩
  · have hcc : (load_data (fun t => t == "Dim_Item") d).conn.committed
        = (loadLoop (fun t => t == "Dim_Item")
            { committed := [], pending := [], closed := false } (tablesOf d)).1.committed := rfl
    rw [hcc, h1, htw]
    simp
  · have hat : (load_data (fun t => t == "Dim_Item") d).attempted
        = (loadLoop (fun t => t == "Dim_Item")
            { committed := [], pending := [], closed := false } (tablesOf d)).2.2 := rfl
    rw [hat, h4, htw, hdw]
    exact (by decide : ("Fact_Purchase" : String) ∉ (["Dim_Customer", "Dim_Item"] : List String))

/-- C9 counterexample: the drop order of setup_database is not the exact
reverse of the creation order of get_create_table_queries. -/
theorem drop_order_not_reverse_of_create :
    drop_order ≠ create_table_names.reverse := by
  have h1 : create_table_names = ["Dim_Customer", "Dim_Item", "Fact_Purchase"] := by rfl
  have h2 : drop_order = ["Fact_Purchase", "Dim_Customer", "Dim_Item"] := by rfl
  rw [h1, h2]
  decide

/-- C9 (amended): tables are created as (Dim_Customer, Dim_Item,
Fact_Purchase), dimensions before fact, and dropped as (Fact_Purchase,
Dim_Customer, Dim_Item): the fact table is dropped first, before both
dimension tables, but the two dimensions are then dropped in creation
order, so the drop sequence is not the exact reverse of creation. -/
theorem drop_and_create_order :
    create_table_names = ["Dim_Customer", "Dim_Item", "Fact_Purchase"]
    ∧ drop_order = ["Fact_Purchase", "Dim_Customer", "Dim_Item"]
    ∧ List.headD drop_order ("") = "Fact_Purchase" :=
  ⟨rfl, rfl, rfl⟩
